import Mathlib

/-!
Verification of the workflow-orchestration core of the
`social-media-post-gen` repository: a shallow embedding of
`src/agent/state.py`, `src/agent/schemas.py`, `src/agent/nodes.py`,
`src/agent/graph.py` and `src/llm/router.py`, together with theorems
about the conditional router, the selective-regeneration logic, the
suspend/resume behaviour of the engine and the LLM fallback/retry
router.
-/

namespace PostGen

/-! ## Data model (`src/agent/schemas.py`) -/

/-- `ImageData` from `schemas.py`: url, prompt, optional alt text. -/
structure ImageData where
  url : String
  prompt : String
  alt_text : Option String := none
deriving DecidableEq, Repr

/-- `LinkedInPost` from `schemas.py`. -/
structure LinkedInPost where
  text : String
  image : Option ImageData := none
  hashtags : List String := []
deriving DecidableEq, Repr

/-- `InstagramPost` from `schemas.py`. -/
structure InstagramPost where
  caption : String
  image : ImageData
  hashtags : List String := []
  alt_text : Option String := none
deriving DecidableEq, Repr

/-- `WordPressSection` from `schemas.py`; `content` is `str | ImageData`. -/
structure WordPressSection where
  type : String
  content : Sum String ImageData
  level : Option Int := none
deriving DecidableEq, Repr

/-- `WordPressPost` from `schemas.py`. -/
structure WordPressPost where
  title : String
  excerpt : String
  sections : List WordPressSection := []
  featured_image : Option ImageData := none
  seo_description : String
  tags : List String := []
deriving DecidableEq, Repr

/-- The analysis dict produced by `analyze_topic` (`nodes.py` asks the LLM
for JSON with keys themes, audience, visual_concepts, tone, takeaways). -/
structure TopicAnalysis where
  themes : List String
  audience : String
  visual_concepts : List String
  tone : String
  takeaways : List String
deriving DecidableEq, Repr

/-! ## Workflow state (`src/agent/state.py`), with its field defaults -/

/-- `PostGenerationState` from `state.py`, defaults included
(`approval_status = "pending_generation"`, regenerate flags `False`,
`finalized = False`, `retry_count = 0`). -/
structure PostGenerationState where
  topic : String
  post_id : Int
  analysis : Option TopicAnalysis := none
  themes : List String := []
  target_audience : Option String := none
  visual_concepts : List String := []
  image : Option ImageData := none
  linkedin_post : Option LinkedInPost := none
  instagram_post : Option InstagramPost := none
  wordpress_post : Option WordPressPost := none
  approval_status : String := "pending_generation"
  feedback : Option String := none
  regenerate_linkedin : Bool := false
  regenerate_instagram : Bool := false
  regenerate_wordpress : Bool := false
  finalized : Bool := false
  error : Option String := none
  retry_count : Int := 0
deriving DecidableEq, Repr

/-- A freshly created state: only `topic` and `post_id` are supplied, every
other field takes its `state.py` default (this is how `routes.py` builds
`initial_state`). -/
def initialState (topic : String) (post_id : Int) : PostGenerationState :=
  { topic := topic, post_id := post_id }

/-! ## Partial state updates (the dicts returned by node functions) -/

/-- A partial update: the dict a LangGraph node returns.  A field that is
`none` is absent from the dict ("no change"); `some v` means the dict maps
that key to `v`. -/
structure StateUpdate where
  topic : Option String := none
  post_id : Option Int := none
  analysis : Option (Option TopicAnalysis) := none
  themes : Option (List String) := none
  target_audience : Option (Option String) := none
  visual_concepts : Option (List String) := none
  image : Option (Option ImageData) := none
  linkedin_post : Option (Option LinkedInPost) := none
  instagram_post : Option (Option InstagramPost) := none
  wordpress_post : Option (Option WordPressPost) := none
  approval_status : Option String := none
  feedback : Option (Option String) := none
  regenerate_linkedin : Option Bool := none
  regenerate_instagram : Option Bool := none
  regenerate_wordpress : Option Bool := none
  finalized : Option Bool := none
  error : Option (Option String) := none
  retry_count : Option Int := none
deriving DecidableEq, Repr

/-- Field-wise merge of a partial update into the state: present keys
overwrite, absent keys leave the state's value alone (the LangGraph
channel-update semantics for this state schema). -/
def applyUpdate (s : PostGenerationState) (u : StateUpdate) : PostGenerationState where
  topic := u.topic.getD s.topic
  post_id := u.post_id.getD s.post_id
  analysis := u.analysis.getD s.analysis
  themes := u.themes.getD s.themes
  target_audience := u.target_audience.getD s.target_audience
  visual_concepts := u.visual_concepts.getD s.visual_concepts
  image := u.image.getD s.image
  linkedin_post := u.linkedin_post.getD s.linkedin_post
  instagram_post := u.instagram_post.getD s.instagram_post
  wordpress_post := u.wordpress_post.getD s.wordpress_post
  approval_status := u.approval_status.getD s.approval_status
  feedback := u.feedback.getD s.feedback
  regenerate_linkedin := u.regenerate_linkedin.getD s.regenerate_linkedin
  regenerate_instagram := u.regenerate_instagram.getD s.regenerate_instagram
  regenerate_wordpress := u.regenerate_wordpress.getD s.regenerate_wordpress
  finalized := u.finalized.getD s.finalized
  error := u.error.getD s.error
  retry_count := u.retry_count.getD s.retry_count

/-! ## String helpers mirroring the Python operations used in `nodes.py`
(`str.lower()` on the ASCII range, and the `in` substring test) -/

/-- ASCII lower-casing of one character (what `str.lower()` does on the
ASCII range, the only range the platform names live in). -/
def lowerChar (c : Char) : Char :=
  if 'A' ≤ c ∧ c ≤ 'Z' then Char.ofNat (c.toNat + 32) else c

/-- ASCII lower-casing of a string, mirroring `feedback.lower()`. -/
def pyLower (s : String) : String :=
  ⟨s.data.map lowerChar⟩

/-- Does `hay` start with `needle`? -/
def startsWithChars : List Char → List Char → Bool
  | [], _ => true
  | _ :: _, [] => false
  | a :: as, b :: bs => a == b && startsWithChars as bs

/-- Does `needle` occur as a contiguous substring of `hay`?  Mirrors
Python's `needle in hay`. -/
def containsChars (needle : List Char) : List Char → Bool
  | [] => startsWithChars needle []
  | b :: bs => startsWithChars needle (b :: bs) || containsChars needle bs

/-- Python's `needle in hay` on strings. -/
def pyContains (hay needle : String) : Bool :=
  containsChars needle.data hay.data

/-- `"name" in (state.feedback or "").lower()` — the per-platform test
`apply_feedback` performs. -/
def feedbackMentions (s : PostGenerationState) (name : String) : Bool :=
  pyContains (pyLower (s.feedback.getD "")) name

/-! ## Pure node functions (`src/agent/nodes.py`) -/

/-- `wait_for_approval` (`nodes.py` lines 283-300): returns exactly
`{"approval_status": "pending_review"}`, ignoring the input state. -/
def wait_for_approval (_s : PostGenerationState) : StateUpdate :=
  { approval_status := some "pending_review" }

/-- `apply_feedback` (`nodes.py` lines 303-332): lower-case the feedback
(`state.feedback or ""`), set each regenerate flag iff the platform name
occurs in it; if no flag would be set, set all three; always set
`approval_status = "regenerating"`. -/
def apply_feedback (s : PostGenerationState) : StateUpdate :=
  let l := feedbackMentions s "linkedin"
  let i := feedbackMentions s "instagram"
  let w := feedbackMentions s "wordpress"
  if l || i || w then
    { regenerate_linkedin := some l
      regenerate_instagram := some i
      regenerate_wordpress := some w
      approval_status := some "regenerating" }
  else
    { regenerate_linkedin := some true
      regenerate_instagram := some true
      regenerate_wordpress := some true
      approval_status := some "regenerating" }

/-- `finalize` (`nodes.py` lines 335-354). -/
def finalize (_s : PostGenerationState) : StateUpdate :=
  { approval_status := some "approved", finalized := some true }

/-- `handle_error` (`nodes.py` lines 357-371): note it sets only
`approval_status` and `finalized`; it does not write the error message
(it merely logs `state.error`), and `create_workflow` never adds it to
the graph. -/
def handle_error (_s : PostGenerationState) : StateUpdate :=
  { approval_status := some "error", finalized := some false }

/-! ## LLM-backed nodes, abstracted over the model backend

`analyze_topic` and the three `generate_<platform>` nodes call the LLM;
their outputs are functions of the state and of whatever the model
returns.  A `NodeEnv` supplies those external results (or a raised
exception, as `Except.error`); the wrappers below rebuild exactly the
update dicts the source returns. -/

structure NodeEnv where
  analyzeResult : PostGenerationState → Except String TopicAnalysis
  linkedinResult : PostGenerationState → Except String LinkedInPost
  instagramResult : PostGenerationState → Except String InstagramPost
  wordpressResult : PostGenerationState → Except String WordPressPost

/-- `analyze_topic` (`nodes.py` lines 22-64): returns the dict with keys
`analysis`, `themes`, `target_audience`, `visual_concepts`. -/
def analyze_topic (env : NodeEnv) (s : PostGenerationState) : Except String StateUpdate := do
  let a ← env.analyzeResult s
  .ok { analysis := some (some a)
        themes := some a.themes
        target_audience := some (some a.audience)
        visual_concepts := some a.visual_concepts }

/-- `generate_image` (`nodes.py` lines 67-83): the body is `pass` (a
TODO), so the node produces no state update. -/
def generate_image (_env : NodeEnv) (_s : PostGenerationState) : Except String StateUpdate :=
  .ok {}

/-- `generate_linkedin` (`nodes.py` lines 86-139): returns
`{"linkedin_post": ...}` built from the LLM response. -/
def generate_linkedin (env : NodeEnv) (s : PostGenerationState) : Except String StateUpdate := do
  let p ← env.linkedinResult s
  .ok { linkedin_post := some (some p) }

/-- `generate_instagram` (`nodes.py` lines 142-197). -/
def generate_instagram (env : NodeEnv) (s : PostGenerationState) : Except String StateUpdate := do
  let p ← env.instagramResult s
  .ok { instagram_post := some (some p) }

/-- `generate_wordpress` (`nodes.py` lines 200-280). -/
def generate_wordpress (env : NodeEnv) (s : PostGenerationState) : Except String StateUpdate := do
  let p ← env.wordpressResult s
  .ok { wordpress_post := some (some p) }

/-! ## The graph (`src/agent/graph.py`) -/

/-- `should_regenerate` (`graph.py` lines 30-47). -/
def should_regenerate (s : PostGenerationState) : String :=
  if s.approval_status = "approved" then "finalize"
  else if s.approval_status = "rejected" then "regenerate"
  else "wait"

/-- The nodes added by `create_workflow` (`graph.py` lines 66-73).
`handle_error` is not among them. -/
def workflowNodes : List String :=
  ["analyze_topic", "generate_image", "generate_linkedin", "generate_instagram",
   "generate_wordpress", "wait_for_approval", "apply_feedback", "finalize"]

/-- The static edges added by `create_workflow` (`graph.py` lines 80-111);
`"END"` stands for LangGraph's END sentinel. -/
def workflowEdges : List (String × String) :=
  [("analyze_topic", "generate_image"),
   ("generate_image", "generate_linkedin"),
   ("generate_image", "generate_instagram"),
   ("generate_image", "generate_wordpress"),
   ("generate_linkedin", "wait_for_approval"),
   ("generate_instagram", "wait_for_approval"),
   ("generate_wordpress", "wait_for_approval"),
   ("apply_feedback", "generate_linkedin"),
   ("apply_feedback", "generate_instagram"),
   ("apply_feedback", "generate_wordpress"),
   ("finalize", "END")]

/-- The conditional-edge mapping attached to `wait_for_approval`
(`graph.py` lines 94-102): route label to target node. -/
def conditionalTargets : List (String × String) :=
  [("regenerate", "apply_feedback"),
   ("finalize", "finalize"),
   ("wait", "wait_for_approval")]

/-- `interrupt_before=["wait_for_approval"]` (`graph.py` line 116). -/
def interruptBefore : List String := ["wait_for_approval"]

/-- Successors of a node for the current (already updated) state: the
conditional edge for `wait_for_approval`, the static edges otherwise. -/
def successors (s : PostGenerationState) (n : String) : List String :=
  if n = "wait_for_approval" then
    (conditionalTargets.filter (fun p => p.1 = should_regenerate s)).map Prod.snd
  else
    (workflowEdges.filter (fun p => p.1 = n)).map Prod.snd

/-! ## The engine: Pregel-style superstep execution of this fixed graph -/

/-- Dispatch a node name to its function (the `add_node` registrations). -/
def runNode (env : NodeEnv) (n : String) (s : PostGenerationState) :
    Except String StateUpdate :=
  match n with
  | "analyze_topic" => analyze_topic env s
  | "generate_image" => generate_image env s
  | "generate_linkedin" => generate_linkedin env s
  | "generate_instagram" => generate_instagram env s
  | "generate_wordpress" => generate_wordpress env s
  | "wait_for_approval" => .ok (wait_for_approval s)
  | "apply_feedback" => .ok (apply_feedback s)
  | "finalize" => .ok (finalize s)
  | _ => .ok {}

/-- Keep the first occurrence of each name. -/
def dedupAux : List String → List String → List String
  | [], acc => acc.reverse
  | x :: xs, acc => if acc.contains x then dedupAux xs acc else dedupAux xs (x :: acc)

def dedup (l : List String) : List String := dedupAux l []

/-- Run every frontier node on the same snapshot, collecting the returned
dicts in order; the first raising node aborts the whole step. -/
def collectUpdates (env : NodeEnv) (s : PostGenerationState) :
    List String → Except String (List StateUpdate)
  | [] => .ok []
  | n :: ns => do
    let u ← runNode env n s
    let us ← collectUpdates env s ns
    .ok (u :: us)

/-- One superstep: every frontier node reads the same snapshot, the
returned dicts are merged (the writers are disjoint by construction), and
the next frontier is computed from the edges on the merged state.  A node
raising aborts the step with no writes committed. -/
def runStep (env : NodeEnv) (s : PostGenerationState) (frontier : List String) :
    Except String (PostGenerationState × List String) := do
  let updates ← collectUpdates env s frontier
  let s' := updates.foldl applyUpdate s
  let next := (dedup (frontier.flatMap (successors s'))).filter (fun n => n ≠ "END")
  .ok (s', next)

inductive Outcome where
  | finished
  | suspended
  | errored (msg : String)
  | fuelExhausted
deriving DecidableEq, Repr

structure RunResult where
  state : PostGenerationState
  executed : List String
  outcome : Outcome
deriving DecidableEq, Repr

/-- The engine loop: stop when the frontier is empty; suspend before
executing a frontier that contains an `interrupt_before` node; abort on a
raising node, leaving the state as it was; otherwise run the superstep
and continue. -/
def runLoop (env : NodeEnv) : Nat → PostGenerationState → List String → List String → RunResult
  | 0, s, _, acc => ⟨s, acc, .fuelExhausted⟩
  | _ + 1, s, [], acc => ⟨s, acc, .finished⟩
  | fuel + 1, s, frontier, acc =>
    if frontier.any (fun n => interruptBefore.contains n) then ⟨s, acc, .suspended⟩
    else
      match runStep env s frontier with
      | .error e => ⟨s, acc, .errored e⟩
      | .ok (s', next) => runLoop env fuel s' next (acc ++ frontier)

/-- A full run from the entry point `analyze_topic`. -/
def runWorkflow (env : NodeEnv) (fuel : Nat) (s : PostGenerationState) : RunResult :=
  runLoop env fuel s ["analyze_topic"] []

/-- Resume a run suspended before `wait_for_approval`: merge the caller's
patch into the checkpointed state, execute the pending
`wait_for_approval` superstep (the interrupt has been passed), then
continue normally. -/
def resume (env : NodeEnv) (fuel : Nat) (s : PostGenerationState) (patch : StateUpdate) :
    RunResult :=
  let s0 := applyUpdate s patch
  match runStep env s0 ["wait_for_approval"] with
  | .error e => ⟨s0, [], .errored e⟩
  | .ok (s1, next) => runLoop env fuel s1 next ["wait_for_approval"]

/-! ## The LLM router (`src/llm/router.py`) -/

/-- `LLMRouter.max_retries` (`router.py` line 57). -/
def maxRetries : Nat := 3

/-- Outcome of `_call_model_with_retry`: the returned text (`none` if the
final attempt raised), how many attempts were made, and the list of
`time.sleep` durations, in order. -/
structure RetryResult where
  result : Option String
  attempts : Nat
  sleeps : List Nat
deriving DecidableEq, Repr

/-- The body of the `for attempt in range(max_retries)` loop
(`router.py` lines 172-181): try the call; on failure sleep `2**attempt`
unless this was the last attempt, which re-raises.  A model's behaviour
is a function from the attempt index to `some` text or `none` (raised). -/
def retryAux (m : Nat → Option String) : Nat → Nat → List Nat → RetryResult
  | 0, attempt, sleeps => ⟨none, attempt, sleeps⟩
  | remaining + 1, attempt, sleeps =>
    match m attempt with
    | some r => ⟨some r, attempt + 1, sleeps⟩
    | none =>
      if remaining = 0 then ⟨none, attempt + 1, sleeps⟩
      else retryAux m remaining (attempt + 1) (sleeps ++ [2 ^ attempt])

/-- `_call_model_with_retry` (`router.py` lines 149-181). -/
def callModelWithRetry (m : Nat → Option String) : RetryResult :=
  retryAux m maxRetries 0 []

/-- The `for model in self.model_chain` loop of `generate`
(`router.py` lines 83-92), also recording how many attempts each tried
model consumed, in chain order. -/
def generateAux : List (Nat → Option String) → List Nat → Except String String × List Nat
  | [], trace => (.error "All models in fallback chain failed", trace)
  | m :: rest, trace =>
    let r := callModelWithRetry m
    match r.result with
    | some s => (.ok s, trace ++ [r.attempts])
    | none => generateAux rest (trace ++ [r.attempts])

/-- `LLMRouter.generate` (`router.py` lines 59-92) over an abstract model
chain, paired with its per-model attempt trace. -/
def generate (chain : List (Nat → Option String)) : Except String String × List Nat :=
  generateAux chain []

/-! ## Concrete fixtures -/

/-- A state holding only a topic, an id and an approval status. -/
def mkStatus (st : String) : PostGenerationState :=
  { topic := "Test topic", post_id := 2, approval_status := st }

/-- A state holding only a topic, an id and reviewer feedback. -/
def mkFeedbackState (fb : String) : PostGenerationState :=
  { topic := "Test topic", post_id := 1, feedback := some fb }

/-! ## Theorems -/

/-- C5: `should_regenerate` returns `"finalize"` when `approval_status`
is `"approved"`, `"regenerate"` when it is `"rejected"`, and `"wait"` for
every other value, including `"pending_review"` and
`"pending_generation"`. -/
theorem should_regenerate_routes (s : PostGenerationState) :
    (s.approval_status = "approved" → should_regenerate s = "finalize") ∧
    (s.approval_status = "rejected" → should_regenerate s = "regenerate") ∧
    (s.approval_status ≠ "approved" → s.approval_status ≠ "rejected" →
      should_regenerate s = "wait") ∧
    should_regenerate { s with approval_status := "pending_review" } = "wait" ∧
    should_regenerate { s with approval_status := "pending_generation" } = "wait" := by
  refine ⟨fun h => ?_, fun h => ?_, fun h1 h2 => ?_, ?_, ?_⟩
  · simp [should_regenerate, h]
  · simp [should_regenerate, h]
  · simp [should_regenerate, h1, h2]
  · simp [should_regenerate]
  · simp [should_regenerate]

/-- C5 witness: the three routes evaluated on concrete states, including
an unrecognized status. -/
theorem should_regenerate_routes_witness :
    should_regenerate (mkStatus "approved") = "finalize" ∧
    should_regenerate (mkStatus "rejected") = "regenerate" ∧
    should_regenerate (mkStatus "something-else") = "wait" :=
  ⟨(should_regenerate_routes (mkStatus "approved")).1 rfl,
   (should_regenerate_routes (mkStatus "rejected")).2.1 rfl,
   (should_regenerate_routes (mkStatus "something-else")).2.2.1 (by decide) (by decide)⟩

/-- C6: `apply_feedback` sets each regenerate flag iff the platform name
occurs (case-insensitively) in the feedback, and sets all three when no
platform name occurs. -/
theorem apply_feedback_selects_mentioned_platforms :
    (∀ s : PostGenerationState,
      (feedbackMentions s "linkedin" || feedbackMentions s "instagram" ||
        feedbackMentions s "wordpress") = true →
      (apply_feedback s).regenerate_linkedin = some (feedbackMentions s "linkedin") ∧
      (apply_feedback s).regenerate_instagram = some (feedbackMentions s "instagram") ∧
      (apply_feedback s).regenerate_wordpress = some (feedbackMentions s "wordpress")) ∧
    (∀ s : PostGenerationState,
      (feedbackMentions s "linkedin" || feedbackMentions s "instagram" ||
        feedbackMentions s "wordpress") = false →
      (apply_feedback s).regenerate_linkedin = some true ∧
      (apply_feedback s).regenerate_instagram = some true ∧
      (apply_feedback s).regenerate_wordpress = some true) := by
  constructor
  · intro s h
    simp [apply_feedback, h]
  · intro s h
    simp [apply_feedback, h]

/-- C6 witness: `"The LinkedIn post needs polish"` selects only linkedin;
`"make it better"` mentions no platform, so all three flags are set. -/
theorem apply_feedback_selects_mentioned_platforms_witness :
    (apply_feedback (mkFeedbackState "The LinkedIn post needs polish")).regenerate_linkedin
      = some true ∧
    (apply_feedback (mkFeedbackState "The LinkedIn post needs polish")).regenerate_instagram
      = some false ∧
    (apply_feedback (mkFeedbackState "The LinkedIn post needs polish")).regenerate_wordpress
      = some false ∧
    (apply_feedback (mkFeedbackState "make it better")).regenerate_linkedin = some true ∧
    (apply_feedback (mkFeedbackState "make it better")).regenerate_instagram = some true ∧
    (apply_feedback (mkFeedbackState "make it better")).regenerate_wordpress = some true := by
  have h1 := apply_feedback_selects_mentioned_platforms.1
    (mkFeedbackState "The LinkedIn post needs polish") (by decide)
  have h2 := apply_feedback_selects_mentioned_platforms.2
    (mkFeedbackState "make it better") (by decide)
  exact ⟨h1.1.trans (by decide), h1.2.1.trans (by decide), h1.2.2.trans (by decide),
         h2.1, h2.2.1, h2.2.2⟩

/-- C7: the update returned by `apply_feedback` always carries
`approval_status = "regenerating"` and no `topic`, `analysis` or `image`
key, so merging it leaves those three fields unchanged. -/
theorem apply_feedback_frame (s : PostGenerationState) :
    (apply_feedback s).approval_status = some "regenerating" ∧
    (apply_feedback s).topic = none ∧
    (apply_feedback s).analysis = none ∧
    (apply_feedback s).image = none ∧
    (applyUpdate s (apply_feedback s)).topic = s.topic ∧
    (applyUpdate s (apply_feedback s)).analysis = s.analysis ∧
    (applyUpdate s (apply_feedback s)).image = s.image := by
  by_cases h : (feedbackMentions s "linkedin" || feedbackMentions s "instagram" ||
      feedbackMentions s "wordpress") = true
  · simp [apply_feedback, h, applyUpdate]
  · simp [apply_feedback, h, applyUpdate]

/-- C9 counterexample: in a freshly created state the three regenerate
flags are `false`, not `true` as claimed. -/
theorem regenerate_flags_default_false_cex :
    (initialState "Test topic" 1).regenerate_linkedin = false ∧
    (initialState "Test topic" 1).regenerate_instagram = false ∧
    (initialState "Test topic" 1).regenerate_wordpress = false :=
  ⟨rfl, rfl, rfl⟩

/-- C9 amended: in a freshly created workflow state all three regenerate
flags default to `false` (`state.py` lines 77-79); they are only ever set
by `apply_feedback`. -/
theorem regenerate_flags_default_false (topic : String) (post_id : Int) :
    (initialState topic post_id).regenerate_linkedin = false ∧
    (initialState topic post_id).regenerate_instagram = false ∧
    (initialState topic post_id).regenerate_wordpress = false :=
  ⟨rfl, rfl, rfl⟩

/-- C10: `wait_for_approval` returns exactly
`{"approval_status": "pending_review"}` whatever the state holds, so any
`approval_status` injected before the node re-runs is overwritten to
`"pending_review"` when it executes. -/
theorem wait_for_approval_overwrites_status (s : PostGenerationState) :
    wait_for_approval s = { approval_status := some "pending_review" } ∧
    ∀ v : String,
      (applyUpdate (applyUpdate s { approval_status := some v })
        (wait_for_approval (applyUpdate s { approval_status := some v }))).approval_status
      = "pending_review" :=
  ⟨rfl, fun _ => rfl⟩

/-! ## Router lemmas -/

/-- A model whose every attempt raises consumes all three retries and
sleeps 1 then 2 time units. -/
lemma retry_allFail (m : Nat → Option String) (h : ∀ k, m k = none) :
    callModelWithRetry m = ⟨none, 3, [1, 2]⟩ := by
  simp [callModelWithRetry, maxRetries, retryAux, h]

/-- A model succeeding at attempt `j < 3` (after `j` failures) is called
`j + 1` times, with the backoff sleeps `2^0, ..., 2^(j-1)` in between. -/
lemma retry_success (m : Nat → Option String) (j : Nat) (r : String)
    (hj : j < 3) (hb : ∀ k, k < j → m k = none) (hm : m j = some r) :
    callModelWithRetry m = ⟨some r, j + 1, (List.range j).map (fun a => 2 ^ a)⟩ := by
  interval_cases j
  · simp [callModelWithRetry, maxRetries, retryAux, hm]
  · have h0 := hb 0 (by omega)
    simp [callModelWithRetry, maxRetries, retryAux, h0, hm]
    decide
  · have h0 := hb 0 (by omega)
    have h1 := hb 1 (by omega)
    simp [callModelWithRetry, maxRetries, retryAux, h0, h1, hm]
    decide

/-- Behaviour of the chain loop when every model before `m` always fails
and `m` succeeds at attempt `j`. -/
lemma generateAux_ok (m : Nat → Option String) (j : Nat) (r : String)
    (hj : j < 3) (hb : ∀ k, k < j → m k = none) (hm : m j = some r) :
    ∀ (pre post : List (Nat → Option String)) (tr : List Nat),
      (∀ f ∈ pre, ∀ k, f k = none) →
      generateAux (pre ++ m :: post) tr =
        (.ok r, tr ++ List.replicate pre.length 3 ++ [j + 1]) := by
  intro pre
  induction pre with
  | nil =>
    intro post tr _
    simp [generateAux, retry_success m j r hj hb hm]
  | cons f fs ih =>
    intro post tr hpre
    have hf : ∀ k, f k = none := hpre f (by simp)
    have hfs : ∀ g ∈ fs, ∀ k, g k = none := fun g hg k => hpre g (by simp [hg]) k
    simp only [List.cons_append, generateAux, retry_allFail f hf, List.append_eq]
    rw [ih post (tr ++ [3]) hfs]
    simp [List.replicate_succ, List.append_assoc]

/-- Behaviour of the chain loop when every model always fails. -/
lemma generateAux_allFail :
    ∀ (chain : List (Nat → Option String)) (tr : List Nat),
      (∀ f ∈ chain, ∀ k, f k = none) →
      generateAux chain tr =
        (.error "All models in fallback chain failed",
         tr ++ List.replicate chain.length 3) := by
  intro chain
  induction chain with
  | nil => intro tr _; simp [generateAux]
  | cons f fs ih =>
    intro tr h
    have hf : ∀ k, f k = none := h f (by simp)
    have hfs : ∀ g ∈ fs, ∀ k, g k = none := fun g hg k => h g (by simp [hg]) k
    simp only [generateAux, retry_allFail f hf]
    rw [ih (tr ++ [3]) hfs]
    simp [List.replicate_succ, List.append_assoc]

/-- C3: `generate` tries models strictly in chain order — every model
before the first success is attempted exactly 3 times, the succeeding
model returns its result immediately and no later model appears in the
attempt trace — and only when every model fails does it return the
terminal error, after `3 * len(chain)` total attempts. -/
theorem generate_fallback_chain_order :
    (∀ (pre : List (Nat → Option String)) (m : Nat → Option String)
       (post : List (Nat → Option String)) (j : Nat) (r : String),
      (∀ f ∈ pre, ∀ k, f k = none) → j < maxRetries →
      (∀ k, k < j → m k = none) → m j = some r →
      generate (pre ++ m :: post) =
        (.ok r, List.replicate pre.length maxRetries ++ [j + 1])) ∧
    (∀ chain : List (Nat → Option String), (∀ f ∈ chain, ∀ k, f k = none) →
      generate chain =
        (.error "All models in fallback chain failed",
         List.replicate chain.length maxRetries) ∧
      (List.replicate chain.length maxRetries).sum = chain.length * maxRetries) := by
  constructor
  · intro pre m post j r hpre hj hb hm
    have h := generateAux_ok m j r (by simpa [maxRetries] using hj) hb hm pre post [] hpre
    simpa [generate, maxRetries] using h
  · intro chain h
    refine ⟨?_, ?_⟩
    · have h2 := generateAux_allFail chain [] h
      simpa [generate, maxRetries] using h2
    · simp [List.sum_replicate, maxRetries, Nat.mul_comm, smul_eq_mul]

/-- A model that raises on every attempt. -/
def failModelA : Nat → Option String := fun _ => none

/-- A second model that raises on every attempt. -/
def failModelB : Nat → Option String := fun _ => none

/-- A model that succeeds immediately. -/
def okModelC : Nat → Option String := fun _ => some "from-C"

/-- C3 witness: on the chain `[A, B, C]` with A, B always failing and C
succeeding, `generate` returns C's result with attempt trace `[3, 3, 1]`;
on `[A, B]` it raises the terminal error after `3 + 3` attempts. -/
theorem generate_fallback_chain_order_witness :
    generate [failModelA, failModelB, okModelC] = (.ok "from-C", [3, 3, 1]) ∧
    generate [failModelA, failModelB] =
      (.error "All models in fallback chain failed", [3, 3]) := by
  have hpre : ∀ f ∈ [failModelA, failModelB], ∀ k, f k = none := by
    intro f hf k; fin_cases hf <;> rfl
  have h1 := generate_fallback_chain_order.1 [failModelA, failModelB] okModelC [] 0 "from-C"
    hpre (by norm_num [maxRetries]) (fun k hk => absurd hk (Nat.not_lt_zero k)) rfl
  have h2 := (generate_fallback_chain_order.2 [failModelA, failModelB] hpre).1
  exact ⟨h1, h2⟩

/-- C4: a single model failing on every attempt is tried exactly
`max_retries = 3` times, with sleeps of `2^0` then `2^1` time units after
the first two failures and no sleep after the final attempt. -/
theorem retry_three_attempts_backoff (m : Nat → Option String) (h : ∀ k, m k = none) :
    callModelWithRetry m = ⟨none, maxRetries, [2 ^ 0, 2 ^ 1]⟩ := by
  simpa [maxRetries] using retry_allFail m h

/-- C4 witness: the retry loop evaluated on a concrete always-failing
model. -/
theorem retry_three_attempts_backoff_witness :
    callModelWithRetry failModelA = ⟨none, 3, [1, 2]⟩ := by
  simpa [maxRetries] using retry_three_attempts_backoff failModelA (fun _ => rfl)

/-! ## Engine lemmas and fixtures -/

/-- Unfolding of `runLoop` on a non-empty frontier with fuel left. -/
lemma runLoop_cons (env : NodeEnv) (fuel : Nat) (s : PostGenerationState)
    (n : String) (ns acc : List String) :
    runLoop env (fuel + 1) s (n :: ns) acc =
      (if (n :: ns).any (fun x => interruptBefore.contains x) then ⟨s, acc, .suspended⟩
       else
         match runStep env s (n :: ns) with
         | .error e => ⟨s, acc, .errored e⟩
         | .ok (s', next) => runLoop env fuel s' next (acc ++ n :: ns)) := rfl

def sampleImage : ImageData :=
  { url := "http://img", prompt := "a robot at a desk" }

def sampleAnalysis : TopicAnalysis :=
  { themes := ["ai"], audience := "devs", visual_concepts := ["robot"]
    tone := "professional", takeaways := ["ship it"] }

def oldLinkedInPost : LinkedInPost := { text := "old linkedin text" }

def newLinkedInPost : LinkedInPost := { text := "new linkedin text" }

def oldInstagramPost : InstagramPost := { caption := "old caption", image := sampleImage }

def newInstagramPost : InstagramPost := { caption := "new caption", image := sampleImage }

def oldWordPressPost : WordPressPost :=
  { title := "old title", excerpt := "e", seo_description := "seo" }

def newWordPressPost : WordPressPost :=
  { title := "new title", excerpt := "e", seo_description := "seo" }

/-- A model backend whose calls all succeed, producing fresh content. -/
def stubEnv : NodeEnv :=
  { analyzeResult := fun _ => .ok sampleAnalysis
    linkedinResult := fun _ => .ok newLinkedInPost
    instagramResult := fun _ => .ok newInstagramPost
    wordpressResult := fun _ => .ok newWordPressPost }

/-- A model backend whose `analyze_topic` call raises. -/
def failingEnv : NodeEnv :=
  { stubEnv with analyzeResult := fun _ => .error "LLM exploded" }

/-- A run just routed to `apply_feedback`: the reviewer rejected with
feedback that names only instagram and wordpress, so `apply_feedback`
computes `regenerate_linkedin = false` and the other two flags true. -/
def rejectedState : PostGenerationState :=
  { topic := "Test topic", post_id := 1
    analysis := some sampleAnalysis, themes := ["ai"]
    target_audience := some "devs", visual_concepts := ["robot"]
    image := some sampleImage
    linkedin_post := some oldLinkedInPost
    instagram_post := some oldInstagramPost
    wordpress_post := some oldWordPressPost
    approval_status := "rejected"
    feedback := some "improve the instagram and wordpress posts" }

/-- A run checkpointed at the suspend point, before `wait_for_approval`
has run: content generated, `approval_status` still at its default. -/
def suspendedState : PostGenerationState :=
  { topic := "Test topic", post_id := 1
    analysis := some sampleAnalysis, themes := ["ai"]
    target_audience := some "devs", visual_concepts := ["robot"]
    image := some sampleImage
    linkedin_post := some oldLinkedInPost
    instagram_post := some oldInstagramPost
    wordpress_post := some oldWordPressPost }

/-! ## Engine theorems -/

/-- C1 counterexample: on the run `rejectedState` routed to
`apply_feedback`, whose feedback sets `regenerate_linkedin = false` and
the other two flags true, re-running the parallel stage still invokes
`generate_linkedin` and replaces `linkedin_post`, because
`create_workflow` wires `apply_feedback` to all three generators
unconditionally and no generator consults its flag. -/
theorem selective_regeneration_cex :
    (runLoop stubEnv 10 rejectedState ["apply_feedback"] []).state.regenerate_linkedin
        = false ∧
    (runLoop stubEnv 10 rejectedState ["apply_feedback"] []).state.regenerate_instagram
        = true ∧
    (runLoop stubEnv 10 rejectedState ["apply_feedback"] []).state.regenerate_wordpress
        = true ∧
    "generate_linkedin" ∈ (runLoop stubEnv 10 rejectedState ["apply_feedback"] []).executed ∧
    (runLoop stubEnv 10 rejectedState ["apply_feedback"] []).state.linkedin_post
        ≠ some oldLinkedInPost := by
  decide

/-- C1 amended: when routed to `apply_feedback`, the engine re-enters the
fan-out by invoking all three platform generators unconditionally —
`apply_feedback`'s successors are the three generators for every state,
the regenerate flags notwithstanding — and the next pass overwrites
`linkedin_post` with the linkedin generator's fresh output. -/
theorem regeneration_invokes_all_generators (env : NodeEnv) (s : PostGenerationState)
    (fuel : Nat) (pli : LinkedInPost) (pig : InstagramPost) (pwp : WordPressPost)
    (hli : env.linkedinResult (applyUpdate s (apply_feedback s)) = .ok pli)
    (hig : env.instagramResult (applyUpdate s (apply_feedback s)) = .ok pig)
    (hwp : env.wordpressResult (applyUpdate s (apply_feedback s)) = .ok pwp) :
    (∀ st : PostGenerationState, successors st "apply_feedback" =
      ["generate_linkedin", "generate_instagram", "generate_wordpress"]) ∧
    (runLoop env (fuel + 3) s ["apply_feedback"] []).executed =
      ["apply_feedback", "generate_linkedin", "generate_instagram", "generate_wordpress"] ∧
    (runLoop env (fuel + 3) s ["apply_feedback"] []).state.linkedin_post = some pli ∧
    (runLoop env (fuel + 3) s ["apply_feedback"] []).outcome = .suspended := by
  refine ⟨fun st => rfl, ?_⟩
  have h1 : runLoop env (fuel + 3) s ["apply_feedback"] [] =
      runLoop env (fuel + 2) (applyUpdate s (apply_feedback s))
        ["generate_linkedin", "generate_instagram", "generate_wordpress"]
        ["apply_feedback"] := by
    rw [show fuel + 3 = (fuel + 2) + 1 from rfl, runLoop_cons]
    simp [runStep, collectUpdates, runNode, successors, workflowEdges, conditionalTargets,
      dedup, dedupAux, interruptBefore, bind, Except.bind, List.foldl]
  have h2 : runLoop env (fuel + 2) (applyUpdate s (apply_feedback s))
      ["generate_linkedin", "generate_instagram", "generate_wordpress"]
      ["apply_feedback"] =
      runLoop env (fuel + 1)
        (applyUpdate (applyUpdate (applyUpdate (applyUpdate s (apply_feedback s))
          { linkedin_post := some (some pli) })
          { instagram_post := some (some pig) })
          { wordpress_post := some (some pwp) })
        ["wait_for_approval"]
        ["apply_feedback", "generate_linkedin", "generate_instagram", "generate_wordpress"] := by
    rw [show fuel + 2 = (fuel + 1) + 1 from rfl, runLoop_cons]
    simp [runStep, collectUpdates, runNode, generate_linkedin, generate_instagram,
      generate_wordpress, hli, hig, hwp, successors, workflowEdges, conditionalTargets,
      dedup, dedupAux, interruptBefore, bind, Except.bind, List.foldl]
  have h3 : runLoop env (fuel + 1)
      (applyUpdate (applyUpdate (applyUpdate (applyUpdate s (apply_feedback s))
        { linkedin_post := some (some pli) })
        { instagram_post := some (some pig) })
        { wordpress_post := some (some pwp) })
      ["wait_for_approval"]
      ["apply_feedback", "generate_linkedin", "generate_instagram", "generate_wordpress"] =
      ⟨applyUpdate (applyUpdate (applyUpdate (applyUpdate s (apply_feedback s))
        { linkedin_post := some (some pli) })
        { instagram_post := some (some pig) })
        { wordpress_post := some (some pwp) },
       ["apply_feedback", "generate_linkedin", "generate_instagram", "generate_wordpress"],
       .suspended⟩ := by
    rw [runLoop_cons]
    simp [interruptBefore]
  rw [h1, h2, h3]
  refine ⟨rfl, ?_, rfl⟩
  simp [applyUpdate]

/-- C1 witness for the amended claim: evaluated on `rejectedState` and the
concrete backend `stubEnv`. -/
theorem regeneration_invokes_all_generators_witness :
    successors rejectedState "apply_feedback" =
      ["generate_linkedin", "generate_instagram", "generate_wordpress"] ∧
    (runLoop stubEnv 3 rejectedState ["apply_feedback"] []).executed =
      ["apply_feedback", "generate_linkedin", "generate_instagram", "generate_wordpress"] ∧
    (runLoop stubEnv 3 rejectedState ["apply_feedback"] []).state.linkedin_post
      = some newLinkedInPost ∧
    (runLoop stubEnv 3 rejectedState ["apply_feedback"] []).outcome = .suspended := by
  have h := regeneration_invokes_all_generators stubEnv rejectedState 0
    newLinkedInPost newInstagramPost newWordPressPost rfl rfl rfl
  exact ⟨h.1 rejectedState, h.2.1, h.2.2.1, h.2.2.2⟩

/-- C2: resuming the checkpointed run `suspendedState` with the patch
`{approval_status: "approved"}` does not finalize: the re-executed
`wait_for_approval` overwrites the patch with `"pending_review"`, the
router therefore returns `"wait"`, and the run re-suspends at
`wait_for_approval` with `finalized = false` — `finalize` never runs. -/
theorem resume_approved_never_finalizes :
    resume stubEnv 10 suspendedState { approval_status := some "approved" } =
      ⟨{ suspendedState with approval_status := "pending_review" },
       ["wait_for_approval"], .suspended⟩ ∧
    ({ suspendedState with approval_status := "pending_review" }
      : PostGenerationState).finalized = false ∧
    "finalize" ∉ ["wait_for_approval"] ∧
    should_regenerate { suspendedState with approval_status := "pending_review" }
      = "wait" := by
  refine ⟨by decide, rfl, by decide, rfl⟩

/-- C8 counterexample: when `analyze_topic` raises, the run aborts without
executing any dependent stage, but the workflow state is NOT transitioned
to `approval_status = "error"` and the message is NOT recorded in the
`error` field — and the `handle_error` node that would set the status is
not in the graph at all. -/
theorem stage_failure_no_error_state_cex :
    (runWorkflow failingEnv 10 (initialState "Test topic" 1)).outcome
        = .errored "LLM exploded" ∧
    (runWorkflow failingEnv 10 (initialState "Test topic" 1)).executed = [] ∧
    (runWorkflow failingEnv 10 (initialState "Test topic" 1)).state.approval_status
        = "pending_generation" ∧
    (runWorkflow failingEnv 10 (initialState "Test topic" 1)).state.error = none ∧
    "handle_error" ∉ workflowNodes := by
  decide

/-- C8 amended: a raising stage aborts the run with that error, executing
no dependent stage and leaving the workflow state exactly as it was (so
`approval_status` is not set to `"error"` and no message is recorded in
`state.error`); the `handle_error` node is not wired into the graph. -/
theorem stage_failure_halts_without_error_state (env : NodeEnv) (fuel : Nat)
    (s : PostGenerationState) (n : String) (ns acc : List String) (e : String)
    (hint : (n :: ns).any (fun x => interruptBefore.contains x) = false)
    (hstep : runStep env s (n :: ns) = .error e) :
    runLoop env (fuel + 1) s (n :: ns) acc = ⟨s, acc, .errored e⟩ ∧
    (runLoop env (fuel + 1) s (n :: ns) acc).state.approval_status = s.approval_status ∧
    (runLoop env (fuel + 1) s (n :: ns) acc).state.error = s.error ∧
    "handle_error" ∉ workflowNodes := by
  have h1 : runLoop env (fuel + 1) s (n :: ns) acc = ⟨s, acc, .errored e⟩ := by
    rw [runLoop_cons, hint, hstep]
    rfl
  exact ⟨h1, by rw [h1], by rw [h1], by decide⟩

/-- C8 witness for the amended claim: evaluated on the failing backend
`failingEnv` at the entry frontier. -/
theorem stage_failure_halts_without_error_state_witness :
    runLoop failingEnv 10 (initialState "Test topic" 1) ["analyze_topic"] [] =
      ⟨initialState "Test topic" 1, [], .errored "LLM exploded"⟩ ∧
    "handle_error" ∉ workflowNodes := by
  have h := stage_failure_halts_without_error_state failingEnv 9
    (initialState "Test topic" 1) "analyze_topic" [] [] "LLM exploded"
    (by decide) rfl
  exact ⟨h.1, h.2.2.2⟩

end PostGen
